import Mathlib

/-!
# The Lighthouse report service of `src/index.js`

A shallow embedding of the Express service: the `POST /api/lighthouse/report`
handler, `runLighthouse`, `saveReportToFile` and the `htmlContent` template.

* JavaScript values that reach the handler are values of `JSValue`; a score of
  an audit entry is a `Score`.
* Calls that leave the process (chrome-launcher, lighthouse, `console.error`,
  `fs`) are recorded, in order, in the trace of a `Run`; what each call answers
  is read from an `Env`.
* The template text is kept character for character; a brace, an apostrophe
  and a double hyphen of the template are written as `\x` escapes.
-/

namespace SeoApi

/-! ## JavaScript values -/

/-- A finite JavaScript number, held as the signed decimal `mant / 10 ^ scale`
that `Number::toString` prints for it (`0.92` is `⟨false, 92, 2⟩`). `NaN` and the
infinities are not represented. -/
structure JSNum where
  neg : Bool
  mant : Nat
  scale : Nat
deriving DecidableEq, Repr

/-- The significant decimal digits of the magnitude: trailing zeros removed. -/
def JSNum.digits (x : JSNum) : List Char :=
  ((Nat.toDigits 10 x.mant).reverse.dropWhile (fun c => c == '0')).reverse

/-- Position of the decimal point: the magnitude is `0.d₁d₂… × 10 ^ pointPos`. -/
def JSNum.pointPos (x : JSNum) : Int :=
  ((Nat.toDigits 10 x.mant).length : Int) - (x.scale : Int)

/-- `Number::toString` on a positive magnitude (ECMA-262, radix 10): plain digits for
an integer below `1e21`, a decimal point inside or `0.00…` in front down to `1e-6`,
exponent form otherwise. -/
def JSNum.magnitudeToString (x : JSNum) : String :=
  let ds := x.digits
  let k : Int := ds.length
  let n := x.pointPos
  if k ≤ n ∧ n ≤ 21 then
    String.mk (ds ++ List.replicate (n - k).toNat '0')
  else if 0 < n ∧ n ≤ 21 then
    String.mk (ds.take n.toNat ++ '.' :: ds.drop n.toNat)
  else if -6 < n ∧ n ≤ 0 then
    String.mk ('0' :: '.' :: List.replicate (-n).toNat '0' ++ ds)
  else
    let e := n - 1
    let sign := if e < 0 then "-" else "+"
    let expo := sign ++ Nat.repr e.natAbs
    if ds.length = 1 then String.mk ds ++ "e" ++ expo
    else String.mk (ds.take 1 ++ '.' :: ds.drop 1) ++ "e" ++ expo

/-- `Number::toString`: what a template literal prints for a number. -/
def JSNum.toString (x : JSNum) : String :=
  if x.mant = 0 then "0"
  else if x.neg then "-" ++ x.magnitudeToString
  else x.magnitudeToString

/-- The numerator of the number over the denominator `10 ^ scale`. -/
def JSNum.signed (x : JSNum) : Int :=
  if x.neg then -(x.mant : Int) else (x.mant : Int)

/-- The comparison `a >= b` of two numbers. -/
def JSNum.ge (a b : JSNum) : Bool :=
  decide (b.signed * (10 : Int) ^ a.scale ≤ a.signed * (10 : Int) ^ b.scale)

/-- The magnitude of an IEEE 754 binary64 number: the finite value `m * 2 ^ e`, or infinity. -/
inductive Binary64 where
  | finite (m : Nat) (e : Int)
  | infinity
deriving DecidableEq, Repr

/-- The floor of the binary logarithm of `n`, by at most `fuel` halvings. -/
def log2Fuel : Nat → Nat → Nat
  | 0, _ => 0
  | fuel + 1, n => if n < 2 then 0 else log2Fuel fuel (n / 2) + 1

/-- The binary64 magnitude nearest to `p / q`, ties to the even significand
(round to nearest, ties to even, with gradual underflow and overflow to infinity). -/
def roundBinary64 (p q : Nat) : Binary64 :=
  if p = 0 then .finite 0 0
  else
    let c : Int := (log2Fuel p p : Int) - (log2Fuel q q : Int)
    let atLeast : Bool :=
      if 0 ≤ c then decide (q * 2 ^ c.toNat ≤ p) else decide (q ≤ p * 2 ^ (-c).toNat)
    let e0 : Int := if atLeast then c else c - 1
    let e : Int := max (e0 - 52) (-1074)
    let num := if 0 ≤ e then p else p * 2 ^ (-e).toNat
    let den := if 0 ≤ e then q * 2 ^ e.toNat else q
    let m0 := num / den
    let r := num % den
    let m := if den < 2 * r ∨ (2 * r = den ∧ m0 % 2 = 1) then m0 + 1 else m0
    if 971 < e ∨ (e = 971 ∧ 2 ^ 53 ≤ m) then .infinity else .finite m e

/-- The double a number is: the binary64 magnitude nearest to its decimal. -/
def JSNum.toBinary64 (x : JSNum) : Binary64 :=
  roundBinary64 x.mant (10 ^ x.scale)

/-- The magnitude of the product `x * 100` of doubles. -/
def Binary64.times100 : Binary64 → Binary64
  | .infinity => .infinity
  | .finite m e =>
    if 0 ≤ e then roundBinary64 (m * 2 ^ e.toNat * 100) 1
    else roundBinary64 (m * 100) (2 ^ (-e).toNat)

/-- Among the decimals with `k` significant digits next to the integer `v`, one that rounds
to the double `v`, the nearer one first. -/
def shortestWith (v k : Nat) : Option Nat :=
  let n := (Nat.toDigits 10 v).length
  let unit := 10 ^ (n - k)
  let lo := v / unit * unit
  let hi := lo + unit
  let okLo := decide (roundBinary64 lo 1 = roundBinary64 v 1)
  let okHi := decide (roundBinary64 hi 1 = roundBinary64 v 1)
  let loFirst :=
    decide (v - lo < hi - v) || (decide (v - lo = hi - v) && decide ((v / unit) % 2 = 0))
  if loFirst then (if okLo then some lo else if okHi then some hi else none)
  else (if okHi then some hi else if okLo then some lo else none)

/-- The decimal with the fewest significant digits, from `k` on, that rounds to the double
`v`; `v` itself after `fuel` tries. -/
def shortestFrom (v : Nat) : Nat → Nat → Nat
  | 0, _ => v
  | fuel + 1, k =>
    match shortestWith v k with
    | some w => w
    | none => shortestFrom v fuel (k + 1)

/-- The method `toFixed(0)` on the double of sign `neg` and magnitude `x`. -/
def Binary64.toFixed0 (neg : Bool) : Binary64 → String
  | .infinity => if neg then "-Infinity" else "Infinity"
  | .finite m e =>
    let num := if 0 ≤ e then m * 2 ^ e.toNat else m
    let den := if 0 ≤ e then 1 else 2 ^ (-e).toNat
    let sign := if neg ∧ m ≠ 0 then "-" else ""
    if 10 ^ 21 * den ≤ num then
      sign ++ JSNum.magnitudeToString ⟨false, shortestFrom (num / den) 17 1, 0⟩
    else
      sign ++ Nat.repr ((2 * num + den) / (2 * den))

/-- A value as JSON parsing of a request body, or a `throw`, can produce it. -/
inductive JSValue where
  | undefined
  | null
  | bool (b : Bool)
  | num (n : JSNum)
  | str (s : String)
  | arr (items : List JSValue)
  | obj (fields : List (String × JSValue))

/-- JavaScript truthiness (`ToBoolean`): what `!url` negates. -/
def JSValue.truthy : JSValue → Bool
  | .undefined => false
  | .null => false
  | .bool b => b
  | .num n => n.mant != 0
  | .str s => s != ""
  | .arr _ => true
  | .obj _ => true

/-- The `score` of an audit entry: `null`, a number, or a boolean. -/
inductive Score where
  | null
  | bool (b : Bool)
  | num (n : JSNum)
deriving DecidableEq, Repr

/-- `ToString` of a score, as a template literal slot applies it. -/
def Score.toString : Score → String
  | .null => "null"
  | .bool b => if b then "true" else "false"
  | .num n => n.toString

/-- `ToBoolean` of a score. -/
def Score.truthy : Score → Bool
  | .null => false
  | .bool b => b
  | .num n => n.mant != 0

/-- `ToNumber` of a score. -/
def Score.toNumber : Score → JSNum
  | .null => ⟨false, 0, 0⟩
  | .bool b => ⟨false, if b then 1 else 0, 0⟩
  | .num n => n

/-! ## Data model -/

/-- One entry of the `audits` mapping of a Lighthouse result. -/
structure AuditEntry where
  title : String
  description : String
  score : Score
  scoreDisplayMode : String
deriving DecidableEq, Repr

/-- The fields of `result.lhr` the handler reads. `audits` is the mapping in the
order `Object.entries` lists it. -/
structure LHR where
  lighthouseVersion : String
  requestedUrl : String
  audits : List (String × AuditEntry)
deriving DecidableEq, Repr

/-- What `lighthouse(url, options)` resolves to. -/
structure RunnerResult where
  lhr : LHR
deriving DecidableEq, Repr

/-- The `options` object `runLighthouse` builds. -/
structure Options where
  logLevel : String
  output : String
  port : Nat
deriving DecidableEq, Repr

/-- The launched browser: `chrome.port` is all the code reads of it. -/
structure Chrome where
  port : Nat
deriving DecidableEq, Repr

/-- The JSON body of a request after `express.json()`; an absent `url` is `undefined`. -/
structure RequestBody where
  url : JSValue

/-- The body the handler sends. -/
inductive ResponseBody where
  | json (fields : List (String × String))
  | html (text : String)
deriving DecidableEq, Repr

/-- An HTTP response: `res.status(status)` followed by `.json` or `.send`. -/
structure Response where
  status : Nat
  body : ResponseBody
deriving DecidableEq, Repr

/-! ## Effects -/

/-- A call that leaves the process. -/
inductive Event where
  | launch (chromeFlags : List String)
  | lighthouse (url : JSValue) (options : Options)
  | kill
  | consoleError (label : String) (error : JSValue)
  | existsSync (path : String)
  | mkdirSync (path : String)
  | writeFileSync (path : String) (data : String)

/-- What the outside world answers during one request. -/
structure Env where
  launch : List String → Except JSValue Chrome
  lighthouse : JSValue → Options → Except JSValue (Option RunnerResult)
  kill : Except JSValue Unit
  toLocaleDateString : String
  dateNow : Nat
  dirname : String
  pathJoin : String → String → String
  existsSync : String → Bool
  mkdirSync : String → Except JSValue Unit
  writeFileSync : String → String → Except JSValue Unit

/-- A computation that has run: the external calls it made, in order, and its result
or the value it threw. -/
structure Run (α : Type) where
  trace : List Event
  outcome : Except JSValue α

/-- A computation that returns without an external call. -/
def Run.pure {α : Type} (a : α) : Run α :=
  ⟨[], .ok a⟩

/-- Sequencing: a throw of the first part skips the second. -/
def Run.bind {α β : Type} (m : Run α) (f : α → Run β) : Run β :=
  match m.outcome with
  | .error e => ⟨m.trace, .error e⟩
  | .ok a => ⟨m.trace ++ (f a).trace, (f a).outcome⟩

instance : Monad Run where
  pure := Run.pure
  bind := Run.bind

/-- The block `try body catch (error) handler`. -/
def Run.tryCatch {α : Type} (body : Run α) (handler : JSValue → Run α) : Run α :=
  match body.outcome with
  | .ok a => ⟨body.trace, .ok a⟩
  | .error e => ⟨body.trace ++ (handler e).trace, (handler e).outcome⟩

/-- One external call: it is recorded, and it answers or throws. -/
def Run.call {α : Type} (ev : Event) (answer : Except JSValue α) : Run α :=
  ⟨[ev], answer⟩

/-- The call `chromeLauncher.launch(\x7b chromeFlags \x7d)`. -/
def chromeLauncher.launch (env : Env) (chromeFlags : List String) : Run Chrome :=
  Run.call (.launch chromeFlags) (env.launch chromeFlags)

/-- The call `lighthouse(url, options)`. -/
def lighthouse (env : Env) (url : JSValue) (options : Options) : Run (Option RunnerResult) :=
  Run.call (.lighthouse url options) (env.lighthouse url options)

/-- The call `chrome.kill()`. -/
def Chrome.kill (env : Env) (_chrome : Chrome) : Run Unit :=
  Run.call .kill env.kill

/-- The call `console.error(label, error)`. -/
def consoleError (label : String) (error : JSValue) : Run Unit :=
  Run.call (.consoleError label error) (.ok ())

/-- The `TypeError` of reading a property of `undefined`. -/
def typeError : JSValue :=
  .obj [("name", .str "TypeError")]

/-- The read `result.lhr`: a `TypeError` when `result` is `undefined`. -/
def lhrOf (result : Option RunnerResult) : Run LHR :=
  match result with
  | none => ⟨[], .error typeError⟩
  | some r => Run.pure r.lhr

/-- Template text of htmlContent from its opening quote up to the first requestedUrl slot (source lines 64 to 159). -/
def htmlHead : String :=
  String.join
    [ "\n"
    , "      <!DOCTYPE html>\n"
    , "      <html lang=\"en\">\n"
    , "      <head>\n"
    , "          <meta charset=\"UTF-8\">\n"
    , "          <meta name=\"viewport\" content=\"width=device-width, initial-scale=1.0\">\n"
    , "          <title>Comprehensive SEO Report</title>\n"
    , "          <style>\n"
    , "              :root \x7b\n"
    , "                  \x2d\x2dprimary-color: #4a90e2;\n"
    , "                  \x2d\x2dsecondary-color: #f5a623;\n"
    , "                  \x2d\x2dtext-color: #333;\n"
    , "                  \x2d\x2dbackground-color: #f8f9fa;\n"
    , "                  \x2d\x2dcard-background: #ffffff;\n"
    , "              \x7d\n"
    , "              body \x7b\n"
    , "                  font-family: \x27Arial\x27, sans-serif;\n"
    , "                  line-height: 1.6;\n"
    , "                  color: var(\x2d\x2dtext-color);\n"
    , "                  background-color: var(\x2d\x2dbackground-color);\n"
    , "                  margin: 0;\n"
    , "                  padding: 0;\n"
    , "              \x7d\n"
    , "              .container \x7b\n"
    , "                  max-width: 1200px;\n"
    , "                  margin: 0 auto;\n"
    , "                  padding: 20px;\n"
    , "              \x7d\n"
    , "              .header \x7b\n"
    , "                  background-color: var(\x2d\x2dprimary-color);\n"
    , "                  color: white;\n"
    , "                  text-align: center;\n"
    , "                  padding: 2em;\n"
    , "                  margin-bottom: 30px;\n"
    , "              \x7d\n"
    , "              .header h1 \x7b\n"
    , "                  margin: 0;\n"
    , "                  font-size: 2.5em;\n"
    , "              \x7d\n"
    , "              .section \x7b\n"
    , "                  background-color: var(\x2d\x2dcard-background);\n"
    , "                  border-radius: 8px;\n"
    , "                  box-shadow: 0 4px 6px rgba(0, 0, 0, 0.1);\n"
    , "                  padding: 25px;\n"
    , "                  margin-bottom: 30px;\n"
    , "              \x7d\n"
    , "              .section h2 \x7b\n"
    , "                  color: var(\x2d\x2dprimary-color);\n"
    , "                  border-bottom: 2px solid var(\x2d\x2dprimary-color);\n"
    , "                  padding-bottom: 10px;\n"
    , "                  margin-top: 0;\n"
    , "              \x7d\n"
    , "              .metric \x7b\n"
    , "                  display: flex;\n"
    , "                  justify-content: space-between;\n"
    , "                  align-items: center;\n"
    , "                  margin-bottom: 15px;\n"
    , "                  padding: 10px;\n"
    , "                  background-color: #f0f4f8;\n"
    , "                  border-radius: 5px;\n"
    , "              \x7d\n"
    , "              .score \x7b\n"
    , "                  font-weight: bold;\n"
    , "                  font-size: 1.2em;\n"
    , "              \x7d\n"
    , "              .good \x7b color: #4CAF50; \x7d\n"
    , "              .average \x7b color: #FFA500; \x7d\n"
    , "              .poor \x7b color: #FF0000; \x7d\n"
    , "              .recommendations ul \x7b\n"
    , "                  padding-left: 20px;\n"
    , "              \x7d\n"
    , "              .recommendations li \x7b\n"
    , "                  margin-bottom: 10px;\n"
    , "              \x7d\n"
    , "              .chart \x7b\n"
    , "                  width: 100%;\n"
    , "                  height: 300px;\n"
    , "                  margin-top: 20px;\n"
    , "              \x7d\n"
    , "              @media (max-width: 768px) \x7b\n"
    , "                  .container \x7b\n"
    , "                      padding: 10px;\n"
    , "                  \x7d\n"
    , "                  .header \x7b\n"
    , "                      padding: 1em;\n"
    , "                  \x7d\n"
    , "                  .header h1 \x7b\n"
    , "                      font-size: 2em;\n"
    , "                  \x7d\n"
    , "              \x7d\n"
    , "          </style>\n"
    , "          <script src=\"https://cdnjs.cloudflare.com/ajax/libs/Chart.js/3.7.0/chart.min.js\"></script>\n"
    , "      </head>\n"
    , "      <body>\n"
    , "          <div class=\"header\">\n"
    , "              <h1>Comprehensive SEO Report For : "
    ]

/-- Template text between the first requestedUrl slot and the render date (lines 159 to 160). -/
def htmlAfterTitle : String :=
  String.join
    [ "</h1>\n"
    , "              <p>Generated on "
    ]

/-- Template text between the render date and the second requestedUrl slot (lines 160 to 166). -/
def htmlAfterDate : String :=
  String.join
    [ "</p>\n"
    , "          </div>\n"
    , "\n"
    , "          <div class=\"container\">\n"
    , "              <div class=\"section\">\n"
    , "                  <h2>Executive Summary</h2>\n"
    , "                  <p>This report provides a detailed analysis of the SEO performance for "
    ]

/-- Template text between the second requestedUrl slot and the audits slot (lines 166 to 178). -/
def htmlAfterSummaryUrl : String :=
  String.join
    [ ". Our evaluation covers key areas including performance metrics, accessibility, best practices, and SEO optimization opportunities. The following sections break down each aspect and offer actionable recommendations for improvement.</p>\n"
    , "              </div>\n"
    , "\n"
    , "              <div class=\"section\">\n"
    , "                  <h2>Overall Scores</h2>\n"
    , "                  <div class=\"chart\">\n"
    , "                      <canvas id=\"scoresChart\"></canvas>\n"
    , "                  </div>\n"
    , "              </div>\n"
    , "\n"
    , "              <div class=\"section\">\n"
    , "                  <h2>Lighthouse Audits</h2>\n"
    , "                  "
    ]

/-- Template text between the audits slot and the third requestedUrl slot (lines 184 to 189). -/
def htmlAfterAudits : String :=
  String.join
    [ "\n"
    , "              </div>\n"
    , "\n"
    , "              <div class=\"section\">\n"
    , "                  <h2>Conclusion</h2>\n"
    , "                  <p>Based on our comprehensive analysis, "
    ]

/-- Template text between the third requestedUrl slot and the script element (lines 189 to 193). -/
def htmlAfterConclusionUrl : String :=
  String.join
    [ " shows promise but has several areas for improvement in terms of SEO and overall web performance. By addressing the recommendations provided, particularly in the areas of performance optimization and SEO best practices, the website can significantly enhance its search engine visibility, user experience, and overall digital presence.</p>\n"
    , "              </div>\n"
    , "          </div>\n"
    , "\n"
    , "          "
    ]

/-- The script element up to the chart labels (lines 193 to 199). -/
def chartScriptHead : String :=
  String.join
    [ "<script>\n"
    , "              // Chart for Overall Scores\n"
    , "              var ctx = document.getElementById(\x27scoresChart\x27).getContext(\x272d\x27);\n"
    , "              var scoresChart = new Chart(ctx, \x7b\n"
    , "                  type: \x27bar\x27,\n"
    , "                  data: \x7b\n"
    , "                      "
    ]

/-- The labels entry of the chart data (line 199). -/
def chartLabels : String :=
  "labels: [\x27Performance\x27, \x27Accessibility\x27, \x27Best Practices\x27, \x27SEO\x27]"

/-- Script text between the chart labels and the chart data values (lines 199 to 202). -/
def chartScriptMid : String :=
  String.join
    [ ",\n"
    , "                      datasets: [\x7b\n"
    , "                          label: \x27Scores\x27,\n"
    , "                          "
    ]

/-- The data entry of the chart dataset (line 202). -/
def chartData : String :=
  "data: [75, 90, 85, 70]"

/-- Script text after the chart data values, to the closing script tag (lines 202 to 229). -/
def chartScriptRest : String :=
  String.join
    [ ",\n"
    , "                          backgroundColor: [\n"
    , "                              \x27rgba(255, 165, 0, 0.6)\x27,\n"
    , "                              \x27rgba(75, 192, 192, 0.6)\x27,\n"
    , "                              \x27rgba(54, 162, 235, 0.6)\x27,\n"
    , "                              \x27rgba(255, 99, 132, 0.6)\x27,\n"
    , "                          ],\n"
    , "                      \x7d]\n"
    , "                  \x7d,\n"
    , "                  options: \x7b\n"
    , "                      scales: \x7b\n"
    , "                          y: \x7b\n"
    , "                              beginAtZero: true,\n"
    , "                              max: 100,\n"
    , "                          \x7d\n"
    , "                      \x7d\n"
    , "                  \x7d\n"
    , "              \x7d);\n"
    , "\n"
    , "              function getScoreClass(score) \x7b\n"
    , "                  if (score === null) return \x27\x27;\n"
    , "                  return score >= 0.9 ? \x27good\x27 : score >= 0.5 ? \x27average\x27 : \x27poor\x27;\n"
    , "              \x7d\n"
    , "\n"
    , "              function getScoreDisplay(audit) \x7b\n"
    , "                  return audit.scoreDisplayMode === \x27binary\x27 ? (audit.score ? \x27Yes\x27 : \x27No\x27) : audit.score !== null ? (audit.score * 100).toFixed(0) + \x27/100\x27 : \x27N/A\x27;\n"
    , "              \x7d\n"
    , "          </script>"
    ]

/-- Template text after the script element (lines 229 to 232). -/
def htmlTail : String :=
  String.join
    [ "\n"
    , "      </body>\n"
    , "      </html>\n"
    , "      "
    ]

/-! ## The program -/

/-- Source lines 18 to 31: launch Chrome, run Lighthouse, kill Chrome, return the result. -/
def runLighthouse (env : Env) (url : JSValue) : Run (Option RunnerResult) := do
  let chrome ← chromeLauncher.launch env ["--headless"]
  let options : Options := { logLevel := "info", output := "json", port := chrome.port }
  let runnerResult ← lighthouse env url options
  Chrome.kill env chrome
  return runnerResult

/-- Source lines 34 to 46: write the serialised report to `reports/report-<now>.json`
under the module directory, creating `reports` when it is absent. `stringify` stands for
`JSON.stringify(report, null, 2)`, and `env.pathJoin` for the `path.join` of the platform. -/
def saveReportToFile {α : Type} (env : Env) (stringify : α → String) (report : α)
    (_url : JSValue) : Run String := do
  let fileName := "report-" ++ Nat.repr env.dateNow ++ ".json"
  let reportsDir := env.pathJoin env.dirname "reports"
  let filePath := env.pathJoin reportsDir fileName
  let present ← Run.call (.existsSync reportsDir) (.ok (env.existsSync reportsDir))
  if !present then
    Run.call (.mkdirSync reportsDir) (env.mkdirSync reportsDir)
  Run.call (.writeFileSync filePath (stringify report)) (env.writeFileSync filePath (stringify report))
  return filePath

/-- Source lines 178 to 184, the arrow function of `map`: the block of one audit. Both
slots of the score span hold `audit.score` itself. -/
def auditBlock (audit : AuditEntry) : String :=
  "\n                      <div class=\"metric\">\n                          <span>"
    ++ audit.title
    ++ ":</span>\n                          <span class=\"score "
    ++ audit.score.toString
    ++ "\">"
    ++ audit.score.toString
    ++ "</span>\n                      </div>\n                      <p>"
    ++ audit.description
    ++ "</p>\n                  "

/-- The slot `Object.entries(audits).map(([key, audit]) => …).join('')`. -/
def auditsHtml (audits : List (String × AuditEntry)) : String :=
  String.join (audits.map fun entry => auditBlock entry.2)

/-- The script element of the template: the chart and the two helper functions. -/
def chartScript : String :=
  chartScriptHead ++ chartLabels ++ chartScriptMid ++ chartData ++ chartScriptRest

/-- Source lines 64 to 232: the template literal `htmlContent`, with
`new Date().toLocaleDateString()` given as `date`. -/
def htmlContent (lhr : LHR) (date : String) : String :=
  htmlHead ++ lhr.requestedUrl ++ htmlAfterTitle ++ date ++ htmlAfterDate
    ++ lhr.requestedUrl ++ htmlAfterSummaryUrl ++ auditsHtml lhr.audits ++ htmlAfterAudits
    ++ lhr.requestedUrl ++ htmlAfterConclusionUrl ++ chartScript ++ htmlTail

/-- Source lines 50 to 239: the handler of `POST /api/lighthouse/report`. -/
def postLighthouseReport (env : Env) (body : RequestBody) : Run Response :=
  let url := body.url
  if !url.truthy then
    return { status := 400, body := .json [("error", "URL is required")] }
  else
    Run.tryCatch
      (do
        let result ← runLighthouse env url
        let lhr ← lhrOf result
        let doc := htmlContent lhr env.toLocaleDateString
        return { status := 200, body := .html doc })
      (fun error => do
        consoleError "Error running Lighthouse:" error
        return { status := 500,
                 body := .json [("error", "An error occurred while generating the report.")] })

/-- Source lines 221 to 224, a function of the page script (text of the template, which
the server never calls): the CSS class of a score. -/
def getScoreClass (score : Score) : String :=
  if score = .null then ""
  else if score.toNumber.ge ⟨false, 9, 1⟩ then "good"
  else if score.toNumber.ge ⟨false, 5, 1⟩ then "average"
  else "poor"

/-- Source lines 226 to 228, a function of the page script (text of the template, which
the server never calls): the text of a score. The product `audit.score * 100` is the product of doubles. -/
def getScoreDisplay (audit : AuditEntry) : String :=
  if audit.scoreDisplayMode = "binary" then (if audit.score.truthy then "Yes" else "No")
  else if audit.score ≠ .null then
    audit.score.toNumber.toBinary64.times100.toFixed0 audit.score.toNumber.neg ++ "/100"
  else "N/A"


/-! ## Sample inputs -/

/-- A result for `https://example.com` with the single audit `audit`. -/
def singleAuditLhr (key : String) (audit : AuditEntry) : LHR :=
  { lighthouseVersion := "11.0.0", requestedUrl := "https://example.com",
    audits := [(key, audit)] }

/-- A passed binary audit: score 1, display mode `binary`. -/
def httpsAudit : AuditEntry :=
  { title := "Uses HTTPS", description := "All sites should be protected with HTTPS.",
    score := .num ⟨false, 1, 0⟩, scoreDisplayMode := "binary" }

/-- A numeric audit with score 0.92. -/
def paintAudit : AuditEntry :=
  { title := "First Contentful Paint", description := "...",
    score := .num ⟨false, 92, 2⟩, scoreDisplayMode := "numeric" }

/-- An audit that could not be computed: score `null`. -/
def nullAudit : AuditEntry :=
  { title := "Largest Contentful Paint", description := "...",
    score := .null, scoreDisplayMode := "numeric" }

/-- The audit result of the end-to-end scenario: one numeric audit with score 0.92. -/
def exampleLhr : LHR :=
  singleAuditLhr "first-contentful-paint" paintAudit

/-- An error value as an external call throws it. -/
def exampleError : JSValue :=
  .obj [("message", .str "net::ERR_NAME_NOT_RESOLVED")]

/-- The error of Lighthouse for a `url` it cannot audit. -/
def invalidUrlError : JSValue :=
  .obj [("name", .str "LighthouseError"), ("code", .str "INVALID_URL")]

/-- The answer of `path.join` on POSIX for a normalised absolute directory `dir` and a
plain file name `name`. -/
def posixJoin (dir name : String) : String :=
  if dir = "/" then "/" ++ name else dir ++ "/" ++ name

/-- A world in which Chrome starts on port 9222, Lighthouse answers `audit` and
Chrome stops; the reports directory does not exist yet. -/
def exampleEnv (audit : Except JSValue (Option RunnerResult)) : Env :=
  { launch := fun _ => .ok ⟨9222⟩
    lighthouse := fun _ _ => audit
    kill := .ok ()
    toLocaleDateString := "11/6/2026"
    dateNow := 1794000000000
    dirname := "/srv/seo-api"
    pathJoin := posixJoin
    existsSync := fun _ => false
    mkdirSync := fun _ => .ok ()
    writeFileSync := fun _ _ => .ok () }

/-- A result for `https://example.com` with three audits. -/
def threeAuditLhr : LHR :=
  { lighthouseVersion := "11.0.0", requestedUrl := "https://example.com",
    audits := [("first-contentful-paint", paintAudit), ("is-on-https", httpsAudit),
      ("largest-contentful-paint", nullAudit)] }

/-- A world in which Chrome starts, Lighthouse returns `threeAuditLhr`, and `chrome.kill()`
rejects. -/
def killFailsEnv : Env :=
  { exampleEnv (.ok (some ⟨threeAuditLhr⟩)) with kill := .error exampleError }

/-- A world in which Chrome does not start. -/
def noChromeEnv : Env :=
  { exampleEnv (.ok none) with launch := fun _ => .error exampleError }

/-! ## Predicates on traces and documents -/

/-- The event is the launch of a browser. -/
def Event.isLaunch : Event → Bool
  | .launch _ => true
  | _ => false

/-- The event is the kill of the browser. -/
def Event.isKill : Event → Bool
  | .kill => true
  | _ => false

/-- The event touches the file system. -/
def Event.isFs : Event → Bool
  | .existsSync _ => true
  | .mkdirSync _ => true
  | .writeFileSync _ _ => true
  | _ => false

/-- The event writes a file. -/
def Event.isWrite : Event → Bool
  | .writeFileSync _ _ => true
  | _ => false

/-- Whether `part` starts `text`. -/
def startsWith : List Char → List Char → Bool
  | [], _ => true
  | _ :: _, [] => false
  | p :: ps, c :: cs => p == c && startsWith ps cs

/-- Whether `part` occurs in `text`. -/
def occursIn (part : List Char) : List Char → Bool
  | [] => part.isEmpty
  | c :: cs => startsWith part (c :: cs) || occursIn part cs

/-- The text `part` occurs in `doc`. -/
def Contains (doc part : String) : Prop :=
  ∃ before after : String, doc = before ++ part ++ after

/-- The response of the validation failure. -/
def urlRequired : Response :=
  { status := 400, body := .json [("error", "URL is required")] }

/-- The response of the catch block. -/
def genericFailure : Response :=
  { status := 500, body := .json [("error", "An error occurred while generating the report.")] }

/-! ## Lemmas on the handler -/

theorem truthy_eq_false_iff (v : JSValue) :
    v.truthy = false ↔
      v = .undefined ∨ v = .null ∨ v = .bool false ∨ v = .str "" ∨
        ∃ n : JSNum, v = .num n ∧ n.mant = 0 := by
  cases v <;> simp [JSValue.truthy]

theorem runLighthouse_launch_throws (env : Env) (url e : JSValue)
    (h : env.launch ["--headless"] = .error e) :
    runLighthouse env url = ⟨[.launch ["--headless"]], .error e⟩ := by
  simp [runLighthouse, bind, Run.bind, chromeLauncher.launch, Run.call, h]

theorem runLighthouse_audit_throws (env : Env) (url e : JSValue) (chrome : Chrome)
    (hl : env.launch ["--headless"] = .ok chrome)
    (ha : env.lighthouse url ⟨"info", "json", chrome.port⟩ = .error e) :
    runLighthouse env url =
      ⟨[.launch ["--headless"], .lighthouse url ⟨"info", "json", chrome.port⟩], .error e⟩ := by
  simp [runLighthouse, bind, Run.bind, chromeLauncher.launch, lighthouse, Run.call, hl, ha]

theorem runLighthouse_kill_throws (env : Env) (url e : JSValue) (chrome : Chrome)
    (r : Option RunnerResult)
    (hl : env.launch ["--headless"] = .ok chrome)
    (ha : env.lighthouse url ⟨"info", "json", chrome.port⟩ = .ok r)
    (hk : env.kill = .error e) :
    runLighthouse env url =
      ⟨[.launch ["--headless"], .lighthouse url ⟨"info", "json", chrome.port⟩, .kill],
        .error e⟩ := by
  simp [runLighthouse, bind, Run.bind, chromeLauncher.launch, lighthouse, Chrome.kill,
    Run.call, hl, ha, hk]

theorem runLighthouse_returns (env : Env) (url : JSValue) (chrome : Chrome)
    (r : Option RunnerResult)
    (hl : env.launch ["--headless"] = .ok chrome)
    (ha : env.lighthouse url ⟨"info", "json", chrome.port⟩ = .ok r)
    (hk : env.kill = .ok ()) :
    runLighthouse env url =
      ⟨[.launch ["--headless"], .lighthouse url ⟨"info", "json", chrome.port⟩, .kill],
        .ok r⟩ := by
  simp [runLighthouse, bind, pure, Run.bind, Run.pure, chromeLauncher.launch, lighthouse,
    Chrome.kill, Run.call, hl, ha, hk]

theorem post_of_falsy (env : Env) (body : RequestBody) (h : body.url.truthy = false) :
    postLighthouseReport env body = ⟨[], .ok urlRequired⟩ := by
  simp [postLighthouseReport, h, pure, Run.pure, urlRequired]

theorem post_of_throw (env : Env) (body : RequestBody) (t : List Event) (e : JSValue)
    (h : body.url.truthy = true) (hr : runLighthouse env body.url = ⟨t, .error e⟩) :
    postLighthouseReport env body =
      ⟨t ++ [.consoleError "Error running Lighthouse:" e], .ok genericFailure⟩ := by
  simp [postLighthouseReport, h, hr, bind, pure, Run.bind, Run.pure, Run.tryCatch,
    consoleError, Run.call, genericFailure]

theorem post_of_undefined (env : Env) (body : RequestBody) (t : List Event)
    (h : body.url.truthy = true) (hr : runLighthouse env body.url = ⟨t, .ok none⟩) :
    postLighthouseReport env body =
      ⟨t ++ [.consoleError "Error running Lighthouse:" typeError], .ok genericFailure⟩ := by
  simp [postLighthouseReport, h, hr, bind, pure, Run.bind, Run.pure, Run.tryCatch,
    consoleError, Run.call, genericFailure, lhrOf]

theorem post_of_result (env : Env) (body : RequestBody) (t : List Event) (r : RunnerResult)
    (h : body.url.truthy = true) (hr : runLighthouse env body.url = ⟨t, .ok (some r)⟩) :
    postLighthouseReport env body =
      ⟨t, .ok ⟨200, .html (htmlContent r.lhr env.toLocaleDateString)⟩⟩ := by
  simp [postLighthouseReport, h, hr, bind, pure, Run.bind, Run.pure, Run.tryCatch, lhrOf]

theorem post_always_responds (env : Env) (body : RequestBody) :
    ∃ response : Response, (postLighthouseReport env body).outcome = .ok response := by
  cases hurl : body.url.truthy
  · exact ⟨_, by rw [post_of_falsy env body hurl]⟩
  · cases hr : runLighthouse env body.url with
    | mk t outcome =>
      cases outcome with
      | error e => exact ⟨_, by rw [post_of_throw env body t e hurl hr]⟩
      | ok result =>
        cases result with
        | none => exact ⟨_, by rw [post_of_undefined env body t hurl hr]⟩
        | some r => exact ⟨_, by rw [post_of_result env body t r hurl hr]⟩

theorem runLighthouse_trace_starts_with_launch (env : Env) (url : JSValue) :
    ∃ rest : List Event, (runLighthouse env url).trace = .launch ["--headless"] :: rest := by
  cases hl : env.launch ["--headless"] with
  | error e => exact ⟨_, by rw [runLighthouse_launch_throws env url e hl]⟩
  | ok chrome =>
    cases ha : env.lighthouse url ⟨"info", "json", chrome.port⟩ with
    | error e => exact ⟨_, by rw [runLighthouse_audit_throws env url e chrome hl ha]⟩
    | ok r =>
      cases hk : env.kill with
      | error e => exact ⟨_, by rw [runLighthouse_kill_throws env url e chrome r hl ha hk]⟩
      | ok u => exact ⟨_, by rw [runLighthouse_returns env url chrome r hl ha hk]⟩

theorem runLighthouse_trace_after_launch (env : Env) (url : JSValue) (chrome : Chrome)
    (hl : env.launch ["--headless"] = .ok chrome) :
    ∃ rest : List Event,
      (runLighthouse env url).trace =
        .launch ["--headless"] :: .lighthouse url ⟨"info", "json", chrome.port⟩ :: rest := by
  cases ha : env.lighthouse url ⟨"info", "json", chrome.port⟩ with
  | error e => exact ⟨_, by rw [runLighthouse_audit_throws env url e chrome hl ha]⟩
  | ok r =>
    cases hk : env.kill with
    | error e => exact ⟨_, by rw [runLighthouse_kill_throws env url e chrome r hl ha hk]⟩
    | ok u => exact ⟨_, by rw [runLighthouse_returns env url chrome r hl ha hk]⟩

theorem post_trace_extends_runLighthouse (env : Env) (body : RequestBody)
    (h : body.url.truthy = true) :
    ∃ rest : List Event,
      (postLighthouseReport env body).trace = (runLighthouse env body.url).trace ++ rest := by
  cases hr : runLighthouse env body.url with
  | mk t outcome =>
    cases outcome with
    | error e => exact ⟨_, by rw [post_of_throw env body t e h hr]⟩
    | ok result =>
      cases result with
      | none => exact ⟨_, by rw [post_of_undefined env body t h hr]⟩
      | some r => exact ⟨[], by rw [post_of_result env body t r h hr, List.append_nil]⟩

theorem post_not_urlRequired (env : Env) (body : RequestBody) (h : body.url.truthy = true) :
    (postLighthouseReport env body).outcome ≠
      .ok ⟨400, .json [("error", "URL is required")]⟩ := by
  have key : ∀ r : Response, r.status = 200 ∨ r.status = 500 →
      (Except.ok r : Except JSValue Response) ≠
        .ok ⟨400, .json [("error", "URL is required")]⟩ := by
    intro r hr heq
    injection heq with heq
    rw [heq] at hr
    simp at hr
  cases hr : runLighthouse env body.url with
  | mk t outcome =>
    cases outcome with
    | error e =>
      rw [post_of_throw env body t e h hr]
      exact key _ (Or.inr rfl)
    | ok result =>
      cases result with
      | none =>
        rw [post_of_undefined env body t h hr]
        exact key _ (Or.inr rfl)
      | some r =>
        rw [post_of_result env body t r h hr]
        exact key _ (Or.inl rfl)

/-! ## Lemmas on text search -/

theorem startsWith_append (part rest : List Char) : startsWith part (part ++ rest) = true := by
  induction part with
  | nil => simp [startsWith]
  | cons p ps ih => simp [startsWith, ih]

theorem occursIn_append (before part rest : List Char) :
    occursIn part (before ++ (part ++ rest)) = true := by
  induction before with
  | nil =>
    cases h : part ++ rest with
    | nil =>
      have hp : part = [] := (List.append_eq_nil.mp h).1
      simp [occursIn, hp]
    | cons c cs =>
      have hs : startsWith part (c :: cs) = true := by
        rw [← h]
        exact startsWith_append part rest
      simp [occursIn, hs]
  | cons c cs ih =>
    rw [List.cons_append, occursIn, ih, Bool.or_true]

theorem occursIn_of_contains (doc part : String) (h : Contains doc part) :
    occursIn part.data doc.data = true := by
  obtain ⟨before, after, rfl⟩ := h
  rw [String.data_append, String.data_append, List.append_assoc]
  exact occursIn_append _ _ _

theorem not_contains_of_occursIn (doc part : String)
    (h : occursIn part.data doc.data = false) : ¬ Contains doc part := by
  intro hc
  rw [occursIn_of_contains doc part hc] at h
  cases h


/-! ## Request validation -/

/-- C1, as the code has it: the check of the `url` is its truthiness and nothing else.
When the `url` of the body is falsy (absent, `null`, `false`, a zero number or the empty
string; see `truthy_eq_false_iff`), the handler answers 400 with the body
`error: "URL is required"` and makes no external call at all: no browser is launched and
Lighthouse is not run. When the `url` is truthy, string or not (every array, every object
and every non-zero number is), the answer is not the 400 response and the `url` is handed
to `runLighthouse`: the trace of the request starts with the trace of
`runLighthouse env url`, whose first call is the launch of Chrome, and once Chrome has
started the next call is `lighthouse` on that very `url`. -/
theorem C1_url_check_is_truthiness (env : Env) (body : RequestBody) :
    (body.url.truthy = false →
      (postLighthouseReport env body).outcome =
          .ok ⟨400, .json [("error", "URL is required")]⟩ ∧
        (postLighthouseReport env body).trace = []) ∧
    (body.url.truthy = true →
      (postLighthouseReport env body).outcome ≠
          .ok ⟨400, .json [("error", "URL is required")]⟩ ∧
        (∃ rest : List Event,
          (postLighthouseReport env body).trace = (runLighthouse env body.url).trace ++ rest) ∧
        (∃ rest : List Event,
          (runLighthouse env body.url).trace = .launch ["--headless"] :: rest) ∧
        ∀ chrome : Chrome, env.launch ["--headless"] = .ok chrome →
          ∃ rest : List Event,
            (postLighthouseReport env body).trace =
              .launch ["--headless"]
                :: .lighthouse body.url ⟨"info", "json", chrome.port⟩ :: rest) ∧
    (∀ items : List JSValue, (JSValue.arr items).truthy = true) ∧
    (∀ fields : List (String × JSValue), (JSValue.obj fields).truthy = true) ∧
    (∀ n : JSNum, n.mant ≠ 0 → (JSValue.num n).truthy = true) := by
  refine ⟨fun h => ?_, fun h => ⟨?_, ?_, ?_, ?_⟩, fun _ => rfl, fun _ => rfl, fun n hn => ?_⟩
  · rw [post_of_falsy env body h]
    exact ⟨rfl, rfl⟩
  · exact post_not_urlRequired env body h
  · exact post_trace_extends_runLighthouse env body h
  · exact runLighthouse_trace_starts_with_launch env body.url
  · intro chrome hl
    obtain ⟨rest, hrest⟩ := post_trace_extends_runLighthouse env body h
    obtain ⟨tail, htail⟩ := runLighthouse_trace_after_launch env body.url chrome hl
    exact ⟨tail ++ rest, by rw [hrest, htail]; rfl⟩
  · simp [JSValue.truthy, hn]

/-- C1, witness: a body without `url` is answered 400 with no external call; the number 123
as `url` is not answered 400 and reaches `lighthouse` on the launched Chrome. -/
theorem C1_url_check_is_truthiness_witness :
    ((postLighthouseReport (exampleEnv (.error invalidUrlError)) ⟨.undefined⟩).outcome =
          .ok ⟨400, .json [("error", "URL is required")]⟩ ∧
        (postLighthouseReport (exampleEnv (.error invalidUrlError)) ⟨.undefined⟩).trace = []) ∧
      (postLighthouseReport (exampleEnv (.error invalidUrlError))
          ⟨.num ⟨false, 123, 0⟩⟩).outcome ≠
        .ok ⟨400, .json [("error", "URL is required")]⟩ ∧
      ∃ rest : List Event,
        (postLighthouseReport (exampleEnv (.error invalidUrlError))
            ⟨.num ⟨false, 123, 0⟩⟩).trace =
          .launch ["--headless"]
            :: .lighthouse (.num ⟨false, 123, 0⟩) ⟨"info", "json", 9222⟩ :: rest :=
  ⟨(C1_url_check_is_truthiness (exampleEnv (.error invalidUrlError)) ⟨.undefined⟩).1 rfl,
    ((C1_url_check_is_truthiness (exampleEnv (.error invalidUrlError))
      ⟨.num ⟨false, 123, 0⟩⟩).2.1 rfl).1,
    ((C1_url_check_is_truthiness (exampleEnv (.error invalidUrlError))
      ⟨.num ⟨false, 123, 0⟩⟩).2.1 rfl).2.2.2 ⟨9222⟩ rfl⟩

/-- C1, counterexample: the array `[]` is not a string, yet it is truthy and passes the
check `!url`: the browser is launched and Lighthouse is called with the array; Lighthouse
rejects it, and the answer is the 500 response, not the 400 response. -/
theorem C1_counterexample_array_url_is_audited :
    (postLighthouseReport (exampleEnv (.error invalidUrlError)) ⟨.arr []⟩).trace =
        [.launch ["--headless"], .lighthouse (.arr []) ⟨"info", "json", 9222⟩,
         .consoleError "Error running Lighthouse:" invalidUrlError] ∧
      (postLighthouseReport (exampleEnv (.error invalidUrlError)) ⟨.arr []⟩).outcome =
        .ok ⟨500, .json [("error", "An error occurred while generating the report.")]⟩ ∧
      (postLighthouseReport (exampleEnv (.error invalidUrlError)) ⟨.arr []⟩).outcome ≠
        .ok ⟨400, .json [("error", "URL is required")]⟩ := by
  have h := post_of_throw (exampleEnv (.error invalidUrlError)) ⟨.arr []⟩ _ invalidUrlError rfl
    (runLighthouse_audit_throws _ _ _ ⟨9222⟩ rfl rfl)
  rw [h]
  refine ⟨rfl, rfl, ?_⟩
  intro hne
  have hstatus := congrArg (fun o => match o with
    | Except.ok (r : Response) => r.status
    | Except.error _ => 0) hne
  simp [genericFailure] at hstatus

/-! ## Browser session -/

/-- C2, at the failing input: Chrome starts and `lighthouse` throws. `runLighthouse` is
left at the throw, before `chrome.kill()`: the trace of the request holds the launch and
the Lighthouse call and no kill, and the caller gets the 500 response. When `lighthouse`
returns, the trace is launch, Lighthouse call, kill. -/
theorem C2_no_kill_when_lighthouse_throws :
    (postLighthouseReport (exampleEnv (.error exampleError))
        ⟨.str "https://example.com"⟩).trace =
        [.launch ["--headless"],
         .lighthouse (.str "https://example.com") ⟨"info", "json", 9222⟩,
         .consoleError "Error running Lighthouse:" exampleError] ∧
      ((postLighthouseReport (exampleEnv (.error exampleError))
        ⟨.str "https://example.com"⟩).trace.filter Event.isLaunch).length = 1 ∧
      ((postLighthouseReport (exampleEnv (.error exampleError))
        ⟨.str "https://example.com"⟩).trace.filter Event.isKill).length = 0 ∧
      (postLighthouseReport (exampleEnv (.error exampleError))
        ⟨.str "https://example.com"⟩).outcome =
        .ok ⟨500, .json [("error", "An error occurred while generating the report.")]⟩ ∧
      (postLighthouseReport (exampleEnv (.ok (some ⟨exampleLhr⟩)))
        ⟨.str "https://example.com"⟩).trace =
        [.launch ["--headless"],
         .lighthouse (.str "https://example.com") ⟨"info", "json", 9222⟩, .kill] := by
  have h := post_of_throw (exampleEnv (.error exampleError)) ⟨.str "https://example.com"⟩
    _ exampleError (by decide) (runLighthouse_audit_throws _ _ _ ⟨9222⟩ rfl rfl)
  have h2 := post_of_result (exampleEnv (.ok (some ⟨exampleLhr⟩)))
    ⟨.str "https://example.com"⟩ _ ⟨exampleLhr⟩ (by decide)
    (runLighthouse_returns _ _ ⟨9222⟩ _ rfl rfl rfl)
  rw [h, h2]
  exact ⟨rfl, rfl, rfl, rfl, rfl⟩

/-! ## Failures -/

/-- C3: when the `url` is truthy (a non-empty string is) and the browser launch or the
Lighthouse run throws any value `e`, the handler answers 500 with the body
`error: "An error occurred while generating the report."`; the response does not mention
`e`, so it is the same for every error. -/
theorem C3_failure_gives_generic_500 (env : Env) (body : RequestBody) (e : JSValue)
    (hurl : body.url.truthy = true)
    (hfail : env.launch ["--headless"] = .error e ∨
      ∃ chrome : Chrome, env.launch ["--headless"] = .ok chrome ∧
        env.lighthouse body.url ⟨"info", "json", chrome.port⟩ = .error e) :
    (postLighthouseReport env body).outcome =
      .ok ⟨500, .json [("error", "An error occurred while generating the report.")]⟩ := by
  rcases hfail with hl | ⟨chrome, hl, ha⟩
  · rw [post_of_throw env body _ e hurl (runLighthouse_launch_throws env body.url e hl)]
    rfl
  · rw [post_of_throw env body _ e hurl (runLighthouse_audit_throws env body.url e chrome hl ha)]
    rfl

/-- C3, witness: Chrome does not start for the request of `https://example.com`. -/
theorem C3_failure_gives_generic_500_witness :
    (postLighthouseReport noChromeEnv ⟨.str "https://example.com"⟩).outcome =
      .ok ⟨500, .json [("error", "An error occurred while generating the report.")]⟩ :=
  C3_failure_gives_generic_500 noChromeEnv ⟨.str "https://example.com"⟩ exampleError
    (by decide) (Or.inl rfl)


/-! ## The rendered document -/

theorem htmlContent_ends_with_script (lhr : LHR) (date : String) :
    ∃ before : String, htmlContent lhr date = before ++ chartScript ++ htmlTail :=
  ⟨htmlHead ++ lhr.requestedUrl ++ htmlAfterTitle ++ date ++ htmlAfterDate
      ++ lhr.requestedUrl ++ htmlAfterSummaryUrl ++ auditsHtml lhr.audits ++ htmlAfterAudits
      ++ lhr.requestedUrl ++ htmlAfterConclusionUrl, rfl⟩

/-- C4, as the code has it: let the `url` be truthy, Chrome start, and `lighthouse` return
the result `lhr`. When `chrome.kill()` then resolves, the handler answers 200 with a
document that contains the text of `lhr.requestedUrl` as it is, and whose audits section is
the concatenation of one block for each entry of `lhr.audits`, in the order of the entries;
the block of an entry holds its title, then its score indicator, then its description. When
`chrome.kill()` rejects, the handler answers with the 500 response of the catch block. -/
theorem C4_returned_result_renders_url_and_one_block_per_entry (env : Env)
    (body : RequestBody) (chrome : Chrome) (lhr : LHR)
    (hurl : body.url.truthy = true)
    (hlaunch : env.launch ["--headless"] = .ok chrome)
    (haudit : env.lighthouse body.url ⟨"info", "json", chrome.port⟩ = .ok (some ⟨lhr⟩)) :
    (env.kill = .ok () →
      ∃ doc : String,
        (postLighthouseReport env body).outcome = .ok ⟨200, .html doc⟩ ∧
        Contains doc lhr.requestedUrl ∧
        doc =
          (htmlHead ++ lhr.requestedUrl ++ htmlAfterTitle ++ env.toLocaleDateString
              ++ htmlAfterDate ++ lhr.requestedUrl ++ htmlAfterSummaryUrl)
            ++ String.join (lhr.audits.map fun entry => auditBlock entry.2)
            ++ (htmlAfterAudits ++ lhr.requestedUrl ++ htmlAfterConclusionUrl ++ chartScript
              ++ htmlTail) ∧
        ∀ audit : AuditEntry, ∃ a b c d : String,
          auditBlock audit =
            a ++ audit.title ++ b ++ audit.score.toString ++ c ++ audit.description ++ d) ∧
    (∀ e : JSValue, env.kill = .error e →
      (postLighthouseReport env body).outcome =
        .ok ⟨500, .json [("error", "An error occurred while generating the report.")]⟩) := by
  refine ⟨fun hkill => ⟨htmlContent lhr env.toLocaleDateString, ?_, ?_, ?_, ?_⟩, fun e hkill => ?_⟩
  · rw [post_of_result env body _ ⟨lhr⟩ hurl
      (runLighthouse_returns env body.url chrome _ hlaunch haudit hkill)]
  · exact ⟨htmlHead, htmlAfterTitle ++ env.toLocaleDateString ++ htmlAfterDate
      ++ lhr.requestedUrl ++ htmlAfterSummaryUrl ++ auditsHtml lhr.audits ++ htmlAfterAudits
      ++ lhr.requestedUrl ++ htmlAfterConclusionUrl ++ chartScript ++ htmlTail,
      by simp [htmlContent, String.append_assoc]⟩
  · simp [htmlContent, auditsHtml, String.append_assoc]
  · intro audit
    exact ⟨"\n                      <div class=\"metric\">\n                          <span>",
      ":</span>\n                          <span class=\"score ",
      "\">" ++ audit.score.toString
        ++ "</span>\n                      </div>\n                      <p>",
      "</p>\n                  ",
      by simp only [auditBlock, String.append_assoc]⟩
  · rw [post_of_throw env body _ e hurl
      (runLighthouse_kill_throws env body.url e chrome _ hlaunch haudit hkill)]
    rfl

/-- C4, witness: a request for `https://example.com` whose audit returns three entries and
whose browser is killed. The audits section is the block of the first entry, then the
block of the second, then the block of the third. -/
theorem C4_returned_result_renders_url_and_one_block_per_entry_witness :
    ∃ doc : String,
      (postLighthouseReport (exampleEnv (.ok (some ⟨threeAuditLhr⟩)))
        ⟨.str "https://example.com"⟩).outcome = .ok ⟨200, .html doc⟩ ∧
      Contains doc "https://example.com" ∧
      doc =
        (htmlHead ++ "https://example.com" ++ htmlAfterTitle ++ "11/6/2026"
            ++ htmlAfterDate ++ "https://example.com" ++ htmlAfterSummaryUrl)
          ++ String.join [auditBlock paintAudit, auditBlock httpsAudit, auditBlock nullAudit]
          ++ (htmlAfterAudits ++ "https://example.com" ++ htmlAfterConclusionUrl
            ++ chartScript ++ htmlTail) ∧
      ∀ audit : AuditEntry, ∃ a b c d : String,
        auditBlock audit =
          a ++ audit.title ++ b ++ audit.score.toString ++ c ++ audit.description ++ d :=
  (C4_returned_result_renders_url_and_one_block_per_entry
    (exampleEnv (.ok (some ⟨threeAuditLhr⟩))) ⟨.str "https://example.com"⟩ ⟨9222⟩
    threeAuditLhr (by decide) rfl rfl).1 rfl

/-- C4, counterexample: `lighthouse` returns the three-entry result for
`https://example.com` and `chrome.kill()` then rejects. The audit was successful, yet the
handler answers 500 and no document. -/
theorem C4_counterexample_kill_rejects_after_result :
    (postLighthouseReport killFailsEnv ⟨.str "https://example.com"⟩).trace =
        [.launch ["--headless"],
         .lighthouse (.str "https://example.com") ⟨"info", "json", 9222⟩, .kill,
         .consoleError "Error running Lighthouse:" exampleError] ∧
      (postLighthouseReport killFailsEnv ⟨.str "https://example.com"⟩).outcome =
        .ok ⟨500, .json [("error", "An error occurred while generating the report.")]⟩ ∧
      ∀ doc : String,
        (postLighthouseReport killFailsEnv ⟨.str "https://example.com"⟩).outcome ≠
          .ok ⟨200, .html doc⟩ := by
  have h := post_of_throw killFailsEnv ⟨.str "https://example.com"⟩ _ exampleError
    (by decide)
    (runLighthouse_kill_throws killFailsEnv _ exampleError ⟨9222⟩ (some ⟨threeAuditLhr⟩)
      rfl rfl rfl)
  rw [h]
  refine ⟨rfl, rfl, ?_⟩
  intro doc hne
  have hstatus := congrArg (fun o => match o with
    | Except.ok (r : Response) => r.status
    | Except.error _ => 0) hne
  simp [genericFailure] at hstatus

/-- C8: every rendered document ends with the same script element followed by the same
closing text, whatever the audits, the requested URL, the Lighthouse version and the
date; that script element carries the labels Performance, Accessibility, Best Practices,
SEO and the data values 75, 90, 85, 70. -/
theorem C8_chart_section_is_constant (lhr₁ lhr₂ : LHR) (date₁ date₂ : String) :
    (∃ before : String, htmlContent lhr₁ date₁ = before ++ chartScript ++ htmlTail) ∧
      (∃ before : String, htmlContent lhr₂ date₂ = before ++ chartScript ++ htmlTail) ∧
      Contains chartScript
        "labels: [\x27Performance\x27, \x27Accessibility\x27, \x27Best Practices\x27, \x27SEO\x27]" ∧
      Contains chartScript "data: [75, 90, 85, 70]" := by
  refine ⟨htmlContent_ends_with_script lhr₁ date₁, htmlContent_ends_with_script lhr₂ date₂,
    ⟨chartScriptHead, chartScriptMid ++ chartData ++ chartScriptRest, ?_⟩,
    ⟨chartScriptHead ++ chartLabels ++ chartScriptMid, chartScriptRest, ?_⟩⟩
  · simp only [chartScript, chartLabels, String.append_assoc]
  · simp only [chartScript, chartData, String.append_assoc]

/-- C9: the document is a function of the requested URL, the audits and the date: two
results that agree on `requestedUrl` and on `audits` render, on the same date, to the
same document, whatever their `lighthouseVersion`. -/
theorem C9_render_depends_on_url_audits_date_only (lhr₁ lhr₂ : LHR) (date : String)
    (hurl : lhr₁.requestedUrl = lhr₂.requestedUrl) (haudits : lhr₁.audits = lhr₂.audits) :
    htmlContent lhr₁ date = htmlContent lhr₂ date := by
  simp only [htmlContent, hurl, haudits]

/-- C9, witness: the example result under two Lighthouse versions. -/
theorem C9_render_depends_on_url_audits_date_only_witness :
    htmlContent exampleLhr "11/6/2026" =
      htmlContent { exampleLhr with lighthouseVersion := "12.2.1" } "11/6/2026" :=
  C9_render_depends_on_url_audits_date_only exampleLhr
    { exampleLhr with lighthouseVersion := "12.2.1" } "11/6/2026" rfl rfl


/-! ## Score text and score class -/

set_option maxRecDepth 100000

/-- C5, at the failing input: a binary audit with score 1. The handler answers 200; the
block of the audit shows the raw score `1` in the score span, where the claim, and the
function `getScoreDisplay` of the page script, say `Yes`. -/
theorem C5_binary_score_is_rendered_raw :
    (postLighthouseReport (exampleEnv (.ok (some ⟨singleAuditLhr "is-on-https" httpsAudit⟩)))
        ⟨.str "https://example.com"⟩).outcome =
        .ok ⟨200, .html (htmlContent (singleAuditLhr "is-on-https" httpsAudit) "11/6/2026")⟩ ∧
      auditsHtml (singleAuditLhr "is-on-https" httpsAudit).audits =
        "\n                      <div class=\"metric\">\n                          <span>Uses HTTPS:</span>\n                          <span class=\"score 1\">1</span>\n                      </div>\n                      <p>All sites should be protected with HTTPS.</p>\n                  " ∧
      httpsAudit.score.toString = "1" ∧
      getScoreDisplay httpsAudit = "Yes" ∧
      ¬ Contains (auditsHtml (singleAuditLhr "is-on-https" httpsAudit).audits) "Yes" := by
  refine ⟨?_, ?_, ?_, ?_, not_contains_of_occursIn _ _ ?_⟩
  · rw [post_of_result _ _ _ ⟨singleAuditLhr "is-on-https" httpsAudit⟩ (by decide)
      (runLighthouse_returns _ _ ⟨9222⟩ _ rfl rfl rfl)]
    rfl
  all_goals decide

/-- C6, at the failing input: the end-to-end scenario, a numeric audit with score 0.92. The
handler answers 200; the block of the audit shows the raw score `0.92` in the score span,
where the claim, and the function `getScoreDisplay` of the page script, say `92/100`; the
text `92/100` does not occur in the audits section. A `null` score prints as `null`, where
`getScoreDisplay` says `N/A`. -/
theorem C6_numeric_score_is_rendered_raw :
    (postLighthouseReport (exampleEnv (.ok (some ⟨exampleLhr⟩)))
        ⟨.str "https://example.com"⟩).outcome =
        .ok ⟨200, .html (htmlContent exampleLhr "11/6/2026")⟩ ∧
      auditsHtml exampleLhr.audits =
        "\n                      <div class=\"metric\">\n                          <span>First Contentful Paint:</span>\n                          <span class=\"score 0.92\">0.92</span>\n                      </div>\n                      <p>...</p>\n                  " ∧
      paintAudit.score.toString = "0.92" ∧
      getScoreDisplay paintAudit = "92/100" ∧
      ¬ Contains (auditsHtml exampleLhr.audits) "92/100" ∧
      nullAudit.score.toString = "null" ∧
      getScoreDisplay nullAudit = "N/A" := by
  refine ⟨?_, ?_, ?_, ?_, not_contains_of_occursIn _ _ ?_, ?_, ?_⟩
  · rw [post_of_result _ _ _ ⟨exampleLhr⟩ (by decide)
      (runLighthouse_returns _ _ ⟨9222⟩ _ rfl rfl rfl)]
    rfl
  all_goals decide

/-- C7, at the failing inputs: an audit with score 0.95 and an audit with score `null`. The
class attribute of the score span is `score 0.95`, resp. `score null`: the raw score stands
where the claim, and the function `getScoreClass` of the page script, say `good`, resp.
nothing. -/
theorem C7_score_class_is_raw_score :
    auditBlock { paintAudit with score := .num ⟨false, 95, 2⟩ } =
        "\n                      <div class=\"metric\">\n                          <span>First Contentful Paint:</span>\n                          <span class=\"score 0.95\">0.95</span>\n                      </div>\n                      <p>...</p>\n                  " ∧
      getScoreClass (.num ⟨false, 95, 2⟩) = "good" ∧
      auditBlock nullAudit =
        "\n                      <div class=\"metric\">\n                          <span>Largest Contentful Paint:</span>\n                          <span class=\"score null\">null</span>\n                      </div>\n                      <p>...</p>\n                  " ∧
      getScoreClass .null = "" := by
  refine ⟨?_, ?_, ?_, ?_⟩
  all_goals decide


/-! ## Persistence -/

theorem saveReportToFile_writes_one_file {α : Type} (env : Env) (stringify : α → String)
    (report : α) (url : JSValue)
    (h : env.existsSync (env.pathJoin env.dirname "reports") = true ∨
      env.mkdirSync (env.pathJoin env.dirname "reports") = .ok ()) :
    (saveReportToFile env stringify report url).trace.filter Event.isWrite =
      [.writeFileSync
        (env.pathJoin (env.pathJoin env.dirname "reports") ("report-" ++ Nat.repr env.dateNow ++ ".json"))
        (stringify report)] := by
  cases hex : env.existsSync (env.pathJoin env.dirname "reports")
  · have hmk : env.mkdirSync (env.pathJoin env.dirname "reports") = .ok () := by
      rcases h with h | h
      · rw [hex] at h
        cases h
      · exact h
    cases hw : env.writeFileSync
        (env.pathJoin (env.pathJoin env.dirname "reports") ("report-" ++ Nat.repr env.dateNow ++ ".json"))
        (stringify report) <;>
      simp [saveReportToFile, bind, pure, Run.bind, Run.pure, Run.call, hex, hmk, hw,
        Event.isWrite]
  · cases hw : env.writeFileSync
        (env.pathJoin (env.pathJoin env.dirname "reports") ("report-" ++ Nat.repr env.dateNow ++ ".json"))
        (stringify report) <;>
      simp [saveReportToFile, bind, pure, Run.bind, Run.pure, Run.call, hex, hw, Event.isWrite]

theorem post_makes_no_fs_call (env : Env) (body : RequestBody) :
    (postLighthouseReport env body).trace.filter Event.isFs = [] := by
  cases hurl : body.url.truthy
  · rw [post_of_falsy env body hurl]
    rfl
  · cases hl : env.launch ["--headless"] with
    | error e =>
      rw [post_of_throw env body _ e hurl (runLighthouse_launch_throws env body.url e hl)]
      rfl
    | ok chrome =>
      cases ha : env.lighthouse body.url ⟨"info", "json", chrome.port⟩ with
      | error e =>
        rw [post_of_throw env body _ e hurl
          (runLighthouse_audit_throws env body.url e chrome hl ha)]
        rfl
      | ok r =>
        cases hk : env.kill with
        | error e =>
          rw [post_of_throw env body _ e hurl
            (runLighthouse_kill_throws env body.url e chrome r hl ha hk)]
          rfl
        | ok u =>
          cases r with
          | none =>
            rw [post_of_undefined env body _ hurl
              (runLighthouse_returns env body.url chrome none hl ha hk)]
            rfl
          | some r =>
            rw [post_of_result env body _ r hurl
              (runLighthouse_returns env body.url chrome (some r) hl ha hk)]
            rfl

/-- C10, as the code has it: the handler of `POST /api/lighthouse/report` makes no call
to the file system, for a successful audit as for a failing request, so it writes no
report file; `saveReportToFile`, which the handler never calls, makes exactly one call of
`fs.writeFileSync` per call, for the path that `path.join` gives for the file name
`report-<Date.now()>.json` in the directory `path.join(__dirname, "reports")`, when that
directory exists or is created. -/
theorem C10_handler_writes_no_file (env : Env) (body : RequestBody) :
    (postLighthouseReport env body).trace.filter Event.isFs = [] ∧
      ∀ (stringify : RunnerResult → String) (report : RunnerResult) (url : JSValue),
        (env.existsSync (env.pathJoin env.dirname "reports") = true ∨
          env.mkdirSync (env.pathJoin env.dirname "reports") = .ok ()) →
        (saveReportToFile env stringify report url).trace.filter Event.isWrite =
          [.writeFileSync
            (env.pathJoin (env.pathJoin env.dirname "reports")
              ("report-" ++ Nat.repr env.dateNow ++ ".json"))
            (stringify report)] :=
  ⟨post_makes_no_fs_call env body,
    fun stringify report url h => saveReportToFile_writes_one_file env stringify report url h⟩

/-- C10, witness: the successful request for `https://example.com` makes no file system
call; a call of `saveReportToFile` in the same world writes the one file
`/srv/seo-api/reports/report-1794000000000.json`. -/
theorem C10_handler_writes_no_file_witness :
    (postLighthouseReport (exampleEnv (.ok (some ⟨exampleLhr⟩)))
        ⟨.str "https://example.com"⟩).trace.filter Event.isFs = [] ∧
      (saveReportToFile (exampleEnv (.ok (some ⟨exampleLhr⟩))) (fun _ => "\x7b\x7d")
        (⟨exampleLhr⟩ : RunnerResult) (.str "https://example.com")).trace.filter Event.isWrite =
        [.writeFileSync "/srv/seo-api/reports/report-1794000000000.json" "\x7b\x7d"] :=
  ⟨(C10_handler_writes_no_file (exampleEnv (.ok (some ⟨exampleLhr⟩)))
      ⟨.str "https://example.com"⟩).1,
    (C10_handler_writes_no_file (exampleEnv (.ok (some ⟨exampleLhr⟩)))
      ⟨.str "https://example.com"⟩).2 (fun _ => "\x7b\x7d") ⟨exampleLhr⟩
      (.str "https://example.com") (Or.inr rfl)⟩

/-- C10, counterexample: the audit of `https://example.com` succeeds and the handler
answers 200, yet the trace of the request is launch, Lighthouse run, kill: no file is
written. -/
theorem C10_counterexample_success_writes_no_file :
    (postLighthouseReport (exampleEnv (.ok (some ⟨exampleLhr⟩)))
        ⟨.str "https://example.com"⟩).outcome =
        .ok ⟨200, .html (htmlContent exampleLhr "11/6/2026")⟩ ∧
      (postLighthouseReport (exampleEnv (.ok (some ⟨exampleLhr⟩)))
        ⟨.str "https://example.com"⟩).trace =
        [.launch ["--headless"],
         .lighthouse (.str "https://example.com") ⟨"info", "json", 9222⟩, .kill] ∧
      ((postLighthouseReport (exampleEnv (.ok (some ⟨exampleLhr⟩)))
        ⟨.str "https://example.com"⟩).trace.filter Event.isWrite).length = 0 := by
  rw [post_of_result _ _ _ ⟨exampleLhr⟩ (by decide)
    (runLighthouse_returns _ _ ⟨9222⟩ _ rfl rfl rfl)]
  exact ⟨rfl, rfl, rfl⟩

end SeoApi
